import Mathlib

/-!
Shallow embedding of the Community Card Balance Checker web application
(configuration module `config.js`, scanner module `scanner.js`, and the
application controller `app.js`), together with proofs of the specified
behaviour of its pure and state-transforming operations.

Conventions of the embedding:
* JS strings are Lean `String`s; the characters relevant here are ASCII.
* JS numbers carried by the wire contract are integers (minor currency
  units); the division-by-100 performed by `formatCurrency` is modelled
  exactly over `ℚ`, with `toFixed(2)` modelled by its ECMA-262 rounding
  rule (nearest multiple of 1/100, ties towards the larger value).
* DOM state touched by the controller is a record; event handlers become
  functions from state (plus event payload) to state, returning the list
  of HTTP requests they issued as an explicit trace.
* `async`/`throw` becomes `Except String` (an exception is its message).
-/

namespace CommunityCard

/-! ## Configuration module (`config.js`) -/

/-- Matcher for the anchored regular expression `^[0-9]{16}$` used as
`CONFIG.SETTINGS.BARCODE_PATTERN`: consumes exactly `n` decimal-digit
characters and requires the end of the string. -/
def matchDigits : Nat → List Char → Bool
  | 0, [] => true
  | 0, _ :: _ => false
  | _ + 1, [] => false
  | n + 1, c :: cs => c.isDigit && matchDigits n cs

/-- Model of `isValidBarcode(barcode)` from `config.js`: tests the barcode
against `BARCODE_PATTERN` (sixteen decimal digits, anchored). -/
def isValidBarcode (barcode : String) : Bool :=
  matchDigits 16 barcode.data

/-- Two-digit zero-padded rendering of a value below 100, as produced for
the fractional part of `Number.prototype.toFixed(2)`. -/
def pad2 (k : Nat) : String :=
  if k < 10 then "0" ++ toString k else toString k

/-- Model of `x.toFixed(2)` for a non-negative exact value `x`: round
`x * 100` to the nearest integer (ties to the larger value, per ECMA-262),
then place the decimal point before the last two digits. -/
def toFixed2abs (x : ℚ) : String :=
  let n : ℤ := ⌊x * 100 + 1/2⌋
  toString (n.toNat / 100) ++ "." ++ pad2 (n.toNat % 100)

/-- Model of `x.toFixed(2)`: ECMA-262 emits a leading minus sign and then
formats the absolute value. -/
def toFixed2 (x : ℚ) : String :=
  if x < 0 then "-" ++ toFixed2abs (-x) else toFixed2abs x

/-- Model of `formatCurrency(amountInCents)` from `config.js`:
`amount = amountInCents / 100` followed by
`CURRENCY_SYMBOL + amount.toFixed(2)` with `CURRENCY_SYMBOL = "€"`. -/
def formatCurrency (amountInCents : ℤ) : String :=
  "€" ++ toFixed2 ((amountInCents : ℚ) / 100)

/-- Model of `String.prototype.trim()`: remove whitespace from both ends
of the string. -/
def jsTrim (s : String) : String :=
  String.mk (((s.data.dropWhile Char.isWhitespace).reverse.dropWhile
    Char.isWhitespace).reverse)

/-- Model of the JS expression `v || dflt` for `v` an optional string
(a missing table entry is `undefined`): both `undefined` and the empty
string are falsy, so they select the default. -/
def jsStringOr (v : Option String) (dflt : String) : String :=
  match v with
  | some s => if s = "" then dflt else s
  | none => dflt

/-- Model of `getCurrentEnvironmentName()` from `config.js`:
`CONFIG.ENV_NAMES[CONFIG.CURRENT_ENV] || "Unknown"`. The concrete
`ENV_NAMES` table is not enumerated in the available source excerpt, so it
is passed as an abstract environment-keyed label table (spec §3,
"a human-readable environment name table"). -/
def getCurrentEnvironmentName (envNames : String → Option String)
    (currentEnv : String) : String :=
  jsStringOr (envNames currentEnv) "Unknown"

/-- Rendering of an integer amount of minor units as a currency string,
written from the specification's words: divide by 100, render with exactly
two decimal places, prefix the currency symbol "€" (negative amounts keep
the minus sign after the symbol, cf. `toFixed`). Used as the comparison
point for the refinement proof about `formatCurrency`. -/
def specCurrencyRendering (n : ℤ) : String :=
  "€" ++ (if n < 0 then "-" else "")
      ++ toString (n.natAbs / 100) ++ "." ++ pad2 (n.natAbs % 100)

/-! ## JavaScript value model

A small model of the JSON-expressible JavaScript values that flow through
the lookup path, with `undefined` included because missing-property access
produces it and property access on it throws. -/

/-- JavaScript values reachable in the lookup path. Numbers are carried as
integers: the wire contract transports balances as integers in minor
currency units. -/
inductive JsVal where
  | undefined : JsVal
  | null : JsVal
  | boolean : Bool → JsVal
  | number : ℤ → JsVal
  | string : String → JsVal
  | object : List (String × JsVal) → JsVal

/-- First binding of a key in a JS object's field list. -/
def lookupField (fields : List (String × JsVal)) (k : String) : Option JsVal :=
  match fields with
  | [] => none
  | (k₀, v) :: rest => if k₀ = k then some v else lookupField rest k

/-- Property access `v[k]`: reading a property of `undefined` or `null`
throws a TypeError; a missing property of an object is `undefined`; any
other primitive has no own property `k` here, giving `undefined`. -/
def jsGet (v : JsVal) (k : String) : Except String JsVal :=
  match v with
  | .undefined => .error ("Cannot read properties of undefined (reading " ++ k ++ ")")
  | .null => .error ("Cannot read properties of null (reading " ++ k ++ ")")
  | .object fields => .ok ((lookupField fields k).getD .undefined)
  | _ => .ok .undefined

/-- Strict equality `v === s` against a string literal, as used by the
`switch` dispatch in `performLookup`. -/
def jsStrictEqString (v : JsVal) (s : String) : Bool :=
  match v with
  | .string t => t = s
  | _ => false

/-- Falsiness of a JS value, for the `result.message || defaultMsg`
expression. -/
def jsFalsy (v : JsVal) : Bool :=
  match v with
  | .undefined => true
  | .null => true
  | .boolean b => !b
  | .number n => n = 0
  | .string s => s = ""
  | .object _ => false

/-- String coercion applied by `textContent` assignment. -/
def jsDisplayString (v : JsVal) : String :=
  match v with
  | .undefined => "undefined"
  | .null => "null"
  | .boolean b => if b then "true" else "false"
  | .number n => toString n
  | .string s => s
  | .object _ => "[object Object]"

/-- Lowercase hexadecimal digit, for JSON string escapes. -/
def hexDigit (n : Nat) : String :=
  String.singleton (if n < 10 then Char.ofNat (48 + n) else Char.ofNat (87 + n))

/-- Escape of one character inside a JSON string literal, per
`JSON.stringify` (characters identified by code point: 34 is the double
quote, 92 the backslash, 10/13/9/8/12 the named control escapes, the
remaining code points below 32 take a `\u00xx` escape). -/
def escapeJsonChar (c : Char) : String :=
  if c.toNat = 34 then "\\\""
  else if c.toNat = 92 then "\\\\"
  else if c.toNat = 10 then "\\n"
  else if c.toNat = 13 then "\\r"
  else if c.toNat = 9 then "\\t"
  else if c.toNat = 8 then "\\b"
  else if c.toNat = 12 then "\\f"
  else if c.toNat < 32 then "\\u00" ++ hexDigit (c.toNat / 16) ++ hexDigit (c.toNat % 16)
  else String.singleton c

/-- JSON string literal for `s`, per `JSON.stringify`. -/
def escapeJsonString (s : String) : String :=
  "\"" ++ (s.data.map escapeJsonChar).foldr (· ++ ·) "" ++ "\""

mutual

/-- Model of `JSON.stringify` on the values above. Fields bound to
`undefined` are skipped, as `JSON.stringify` does; a bare `undefined`
(which `JSON.stringify` maps to no output at all) is rendered "null" —
it is unreachable from the one call site in `getCardBalance`. -/
def jsonStringify : JsVal → String
  | .undefined => "null"
  | .null => "null"
  | .boolean b => if b then "true" else "false"
  | .number n => toString n
  | .string s => escapeJsonString s
  | .object fields => "\x7b" ++ String.intercalate "," (jsonStringifyFields fields) ++ "\x7d"

/-- Rendered `key:value` members of an object, skipping `undefined`. -/
def jsonStringifyFields : List (String × JsVal) → List String
  | [] => []
  | (_, .undefined) :: rest => jsonStringifyFields rest
  | (k, v) :: rest => (escapeJsonString k ++ ":" ++ jsonStringify v) :: jsonStringifyFields rest

end

/-! ## Backend lookup client (embedded in `app.js`) -/

/-- The observable pieces of the one `fetch` call issued by
`getCardBalance`. -/
structure JsRequest where
  method : String
  url : String
  contentType : String
  body : String
deriving DecidableEq, Repr

/-- The request constructed by `getCardBalance(barcode)`:
`POST` to the cloud-function URL, JSON content type, body
`JSON.stringify(\x7bdata: \x7bbarcode: barcode\x7d\x7d)`. -/
def cardBalanceRequest (barcode : String) : JsRequest where
  method := "POST"
  url := "https://europe-west1-community-card-dev.cloudfunctions.net/getCardBalance"
  contentType := "application/json"
  body := jsonStringify (.object [("data", .object [("barcode", .string barcode)])])

/-- Outcome of `fetch` plus `response.json()` for one request: either the
parsed JSON value of the response, or the message of the exception raised
by a transport failure or a JSON parse failure. -/
def Transport : Type := JsRequest → Except String JsVal

/-- Model of `CommunityCardApp.getCardBalance(barcode)`: awaits the fetch
of `cardBalanceRequest barcode`, awaits the JSON parse (both folded into
the transport oracle), and returns `res.result`. -/
def getCardBalance (transport : Transport) (barcode : String) :
    Except String JsVal :=
  match transport (cardBalanceRequest barcode) with
  | .error e => .error e
  | .ok res => jsGet res "result"

/-! ## Application controller state (`app.js`) -/

/-- The DOM-backed state owned by `CommunityCardApp`: the input element's
value, the in-flight flag, the barcode of the last started lookup, the
visibility of the three result sections, the text of the display nodes,
the disabled flags of the controls, and the lookup button's label parts. -/
structure AppState where
  inputValue : String
  isLookingUp : Bool
  currentBarcode : Option String
  loadingVisible : Bool
  errorVisible : Bool
  successVisible : Bool
  errorMessageText : String
  availableBalanceText : String
  monthlyBudgetText : String
  inputDisabled : Bool
  lookupDisabled : Bool
  scanDisabled : Bool
  lookupButtonText : String
  lookupButtonIcon : String
deriving DecidableEq, Repr

namespace CommunityCardApp

/-- Model of `hideAllSections()`: adds the `hidden` class to the loading,
error and success sections. -/
def hideAllSections (st : AppState) : AppState :=
  { st with loadingVisible := false, errorVisible := false, successVisible := false }

/-- Model of `showError(message)`: hides all sections, writes the message
and reveals the error section. The 5000 ms auto-reset it schedules is a
timer event outside this state model. -/
def showError (st : AppState) (message : String) : AppState :=
  let st₁ := hideAllSections st
  { st₁ with errorMessageText := message, errorVisible := true }

/-- Model of `resetResults()`: hides all sections and forgets the barcode
of the last lookup, leaving the input value untouched. -/
def resetResults (st : AppState) : AppState :=
  { hideAllSections st with currentBarcode := none }

/-- Argument coercion of `formatCurrency` as invoked by `showSuccess` on a
raw JSON field: a number is formatted; `null` and booleans coerce to 0/1;
the remaining cases (missing field, objects; string coercion is outside
the wire contract) divide to NaN and render as "€NaN". -/
def jsCurrencyText (v : JsVal) : String :=
  match v with
  | .number n => formatCurrency n
  | .null => formatCurrency 0
  | .boolean b => formatCurrency (if b then 1 else 0)
  | _ => "€NaN"

/-- Model of `showSuccess(data)`: hides all sections, renders the two
balance figures through `formatCurrency`, reveals the success section.
Property access on an `undefined`/`null` payload throws, which the model
returns as an `Except.error`. -/
def showSuccess (st : AppState) (data : JsVal) : Except String AppState :=
  let st₁ := hideAllSections st
  match jsGet data "availableMoneyMinor" with
  | .error e => .error e
  | .ok a =>
    match jsGet data "startingBudgetMinor" with
    | .error e => .error e
    | .ok b =>
      .ok { st₁ with
              availableBalanceText := jsCurrencyText a,
              monthlyBudgetText := jsCurrencyText b,
              successVisible := true }

/-- Model of `setLookupState(isLookingUp)`: records the flag, disables or
enables the three controls, swaps the lookup button's label and icon, and
shows (`showLoading`, which first hides all sections) or hides the loading
section. -/
def setLookupState (st : AppState) (b : Bool) : AppState :=
  let st₁ := { st with isLookingUp := b, lookupDisabled := b,
                       scanDisabled := b, inputDisabled := b }
  if b then
    let st₂ := { st₁ with lookupButtonText := "Checking...",
                          lookupButtonIcon := "hourglass_empty" }
    { hideAllSections st₂ with loadingVisible := true }
  else
    let st₂ := { st₁ with lookupButtonText := "Check Balance",
                          lookupButtonIcon := "search" }
    { st₂ with loadingVisible := false }

/-- Value left in the barcode input element by `handleBarcodeInput`:
`value.replace(/\D/g, "")` is the digit filter, written back only when it
changed something, then `substring(0, 16)` when longer than 16. -/
def storedBarcodeValue (value : String) : String :=
  let digitsOnly := String.mk (value.data.filter Char.isDigit)
  let v₁ := if digitsOnly ≠ value then digitsOnly else value
  if digitsOnly.length > 16 then String.mk (digitsOnly.data.take 16) else v₁

/-- Model of `handleBarcodeInput(event)` for a raw input value: strip
non-digits, truncate to 16, reset stale results when the stored value no
longer matches the last looked-up barcode. Returns the new state plus
whether a debounced auto-lookup was scheduled (the stored value reached
exactly 16 digits). -/
def handleBarcodeInput (st : AppState) (value : String) : AppState × Bool :=
  let v₂ := storedBarcodeValue value
  let st₁ := { st with inputValue := v₂ }
  let st₂ := if st₁.currentBarcode = some v₂ then st₁ else resetResults st₁
  (st₂, v₂.length = 16)

/-- Body of the `try` block of `performLookup()` after the state setup:
await the lookup, then dispatch on `result.status`. An `Except.error`
is an exception escaping the `try` block. -/
def lookupOutcome (st₁ : AppState) (transport : Transport) (barcode : String) :
    Except String AppState :=
  match getCardBalance transport barcode with
  | .error e => .error e
  | .ok result =>
    match jsGet result "status" with
    | .error e => .error e
    | .ok status =>
      if jsStrictEqString status "success" then
        match jsGet result "data" with
        | .error e => .error e
        | .ok data => showSuccess st₁ data
      else if jsStrictEqString status "card_not_found" then
        .ok (showError st₁ "Card not found. Please check the barcode and try again.")
      else if jsStrictEqString status "error" then
        match jsGet result "message" with
        | .error e => .error e
        | .ok msg =>
          .ok (showError st₁
            (if jsFalsy msg then "An error occurred while checking the card"
             else jsDisplayString msg))
      else
        .ok (showError st₁ "Unexpected response from server")

/-- Model of `performLookup()` run to completion against a transport
oracle: validation, the in-flight guard, the state updates of the
`try`/`catch`/`finally` block, and the status dispatch. The second
component is the list of HTTP requests issued during the call. -/
def performLookup (st : AppState) (transport : Transport) :
    AppState × List JsRequest :=
  let barcode := jsTrim st.inputValue
  if barcode = "" then
    (showError st "Please enter a barcode", [])
  else if isValidBarcode barcode = false then
    (showError st "Please enter a valid 16-digit barcode", [])
  else if st.isLookingUp then
    (st, [])
  else
    let st₁ := { setLookupState st true with currentBarcode := some barcode }
    match lookupOutcome st₁ transport barcode with
    | .ok st₂ => (setLookupState st₂ false, [cardBalanceRequest barcode])
    | .error e =>
      (setLookupState (showError st₁ ("Network error: " ++ e)) false,
       [cardBalanceRequest barcode])

end CommunityCardApp

/-- Fully idle controller state holding `input` in the barcode field, as
established by `resetUI()`; used as a concrete evaluation point. -/
def idleState (input : String) : AppState where
  inputValue := input
  isLookingUp := false
  currentBarcode := none
  loadingVisible := false
  errorVisible := false
  successVisible := false
  errorMessageText := ""
  availableBalanceText := ""
  monthlyBudgetText := ""
  inputDisabled := false
  lookupDisabled := false
  scanDisabled := false
  lookupButtonText := "Check Balance"
  lookupButtonIcon := "search"

/-- Controller state with a lookup in flight (as set by
`setLookupState(true)`) while the barcode field holds `input`; used as a
concrete evaluation point. -/
def inFlightState (input : String) : AppState where
  inputValue := input
  isLookingUp := true
  currentBarcode := some input
  loadingVisible := true
  errorVisible := false
  successVisible := false
  errorMessageText := ""
  availableBalanceText := ""
  monthlyBudgetText := ""
  inputDisabled := true
  lookupDisabled := true
  scanDisabled := true
  lookupButtonText := "Checking..."
  lookupButtonIcon := "hourglass_empty"

/-! ## Barcode scanner (`scanner.js`) -/

/-- State of a `BarcodeScanner` instance together with the two pieces of
decoding-engine state it manipulates: whether the engine session (camera
stream plus decoder) is running, and whether the detection handler is
attached. -/
structure ScannerState where
  isScanning : Bool
  scannerInitialized : Bool
  engineRunning : Bool
  handlerAttached : Bool
deriving DecidableEq, Repr

namespace BarcodeScanner

/-- Model of `BarcodeScanner.stop()`: when scanning, halt the engine and
clear the flag; in every case detach the detection handler and mark the
scanner uninitialized. -/
def stop (s : ScannerState) : ScannerState :=
  let s₁ := if s.isScanning then { s with engineRunning := false, isScanning := false } else s
  { s₁ with handlerAttached := false, scannerInitialized := false }

/-- Model of `BarcodeScanner.handleDetection(result)` applied to the
decoded text `result.codeResult.code`: ignore the event when not
scanning; on a valid 16-digit code, stop and surface the code through the
success callback (returned as `some code`); otherwise keep scanning. -/
def handleDetection (s : ScannerState) (code : String) :
    ScannerState × Option String :=
  if s.isScanning = false then (s, none)
  else if isValidBarcode code then (stop s, some code)
  else (s, none)

end BarcodeScanner

/-- State of the `ScannerManager` singleton: whether the modal carries the
`hidden` class, the wrapped scanner state, and the pending scan-timeout
handle if one is armed. -/
structure ManagerState where
  modalHidden : Bool
  scanner : ScannerState
  scanTimeout : Option Nat
deriving DecidableEq, Repr

namespace ScannerManager

/-- Model of `ScannerManager.closeScannerModal()`: hide the modal, stop
the scanner, and clear the pending timeout if any. -/
def closeScannerModal (m : ManagerState) : ManagerState :=
  let m₁ := { m with modalHidden := true }
  let m₂ := { m₁ with scanner := BarcodeScanner.stop m₁.scanner }
  match m₂.scanTimeout with
  | some _ => { m₂ with scanTimeout := none }
  | none => m₂

/-- Model of `ScannerManager.handleScanResult(barcode)`: close the modal
and deliver `(barcode, null)` to the completion callback. -/
def handleScanResult (m : ManagerState) (barcode : String) :
    ManagerState × (Option String × Option String) :=
  (closeScannerModal m, (some barcode, none))

/-- Model of `ScannerManager.handleScanError(error)`: close the modal and
deliver `(null, error)` to the completion callback. -/
def handleScanError (m : ManagerState) (err : String) :
    ManagerState × (Option String × Option String) :=
  (closeScannerModal m, (none, some err))

end ScannerManager

/-- Scanner state of a live session (scanning, initialized, engine up,
handler attached); used as a concrete evaluation point. -/
def activeScannerState : ScannerState where
  isScanning := true
  scannerInitialized := true
  engineRunning := true
  handlerAttached := true

/-- Manager state of an open modal with a live session and an armed
timeout; used as a concrete evaluation point. -/
def openManagerState : ManagerState where
  modalHidden := false
  scanner := activeScannerState
  scanTimeout := some 5

end CommunityCard

namespace CommunityCard

theorem matchDigits_iff (cs : List Char) : ∀ n : Nat,
    matchDigits n cs = true ↔ (cs.length = n ∧ ∀ c ∈ cs, c.isDigit = true) := by
  induction cs with
  | nil => intro n; cases n <;> simp [matchDigits]
  | cons c cs ih =>
    intro n
    cases n with
    | zero => simp [matchDigits]
    | succ m =>
      simp only [matchDigits, Bool.and_eq_true, ih m, List.length_cons,
        Nat.succ_inj, List.forall_mem_cons]
      tauto

/-- C1: for every string `value`, `isValidBarcode value` returns true iff
`value` consists of exactly 16 decimal digits and nothing else; a string
of a different length or containing a non-digit yields false. -/
theorem isValidBarcode_iff_sixteen_digits (s : String) :
    isValidBarcode s = true ↔ (s.length = 16 ∧ ∀ c ∈ s.data, c.isDigit = true) := by
  have hlen : s.length = s.data.length := rfl
  rw [isValidBarcode, matchDigits_iff s.data 16, hlen]

theorem storedBarcodeValue_eq (value : String) :
    CommunityCardApp.storedBarcodeValue value =
      String.mk ((value.data.filter Char.isDigit).take 16) := by
  simp only [CommunityCardApp.storedBarcodeValue]
  by_cases h : (String.mk (value.data.filter Char.isDigit)).length > 16
  · rw [if_pos h]
  · rw [if_neg h]
    have hle : (value.data.filter Char.isDigit).length ≤ 16 := by
      simpa [String.length] using h
    rw [List.take_of_length_le hle]
    by_cases hne : String.mk (value.data.filter Char.isDigit) ≠ value
    · rw [if_pos hne]
    · rw [if_neg hne]
      push_neg at hne
      exact hne.symm

/-- C4: after the input handler runs, the stored input value equals the
raw string with all non-digit characters removed, truncated to its first
16 characters; in particular "12a34" stores as "1234" and 20 digits keep
only the first 16. -/
theorem handleBarcodeInput_strips_and_truncates :
    (∀ (st : AppState) (value : String),
      (CommunityCardApp.handleBarcodeInput st value).1.inputValue =
        String.mk ((value.data.filter Char.isDigit).take 16)) ∧
    (∀ st : AppState,
      (CommunityCardApp.handleBarcodeInput st "12a34").1.inputValue = "1234") ∧
    (∀ st : AppState,
      (CommunityCardApp.handleBarcodeInput st "12345678901234567890").1.inputValue =
        "1234567890123456") := by
  have hgen : ∀ (st : AppState) (value : String),
      (CommunityCardApp.handleBarcodeInput st value).1.inputValue =
        String.mk ((value.data.filter Char.isDigit).take 16) := by
    intro st value
    rw [← storedBarcodeValue_eq]
    unfold CommunityCardApp.handleBarcodeInput
    by_cases h : st.currentBarcode = some (CommunityCardApp.storedBarcodeValue value) <;>
      simp [h, CommunityCardApp.resetResults, CommunityCardApp.hideAllSections]
  refine ⟨hgen, fun st => ?_, fun st => ?_⟩
  · rw [hgen]; decide
  · rw [hgen]; decide

/-- C5: a detection delivered while scanning is inactive is ignored; an
active-session detection of a non-16-digit value invokes no callback and
keeps scanning; an active-session detection of a 16-digit value stops the
scanner and surfaces the code through the success callback, after which
any further detection is ignored. -/
theorem handleDetection_valid_once :
    ∀ (s : ScannerState) (code : String),
      (s.isScanning = false → BarcodeScanner.handleDetection s code = (s, none)) ∧
      (s.isScanning = true → isValidBarcode code = false →
        BarcodeScanner.handleDetection s code = (s, none)) ∧
      (s.isScanning = true → isValidBarcode code = true →
        BarcodeScanner.handleDetection s code = (BarcodeScanner.stop s, some code) ∧
        (BarcodeScanner.stop s).isScanning = false ∧
        (BarcodeScanner.stop s).engineRunning = false ∧
        ∀ code₂, BarcodeScanner.handleDetection (BarcodeScanner.stop s) code₂ =
          (BarcodeScanner.stop s, none)) := by
  intro s code
  refine ⟨fun h => ?_, fun h hv => ?_, fun h hv => ?_⟩
  · simp [BarcodeScanner.handleDetection, h]
  · simp [BarcodeScanner.handleDetection, h, hv]
  · have hstop : (BarcodeScanner.stop s).isScanning = false := by
      simp [BarcodeScanner.stop, h]
    refine ⟨by simp [BarcodeScanner.handleDetection, h, hv], hstop, ?_, fun code₂ => ?_⟩
    · simp [BarcodeScanner.stop, h]
    · simp [BarcodeScanner.handleDetection, hstop]

theorem handleDetection_valid_once_witness :
    isValidBarcode "1234567890123456" = true ∧
    BarcodeScanner.handleDetection activeScannerState "1234567890123456" =
      (BarcodeScanner.stop activeScannerState, some "1234567890123456") :=
  ⟨by decide, ((handleDetection_valid_once _ _).2.2 rfl (by decide)).1⟩

/-- C7: `closeScannerModal` is idempotent; in every state it hides the
modal, stops the scanner (the engine session ends whenever the engine
state agreed with the session flag) and clears the pending timeout, and
both completion paths (`handleScanResult`, `handleScanError`) route
through it. -/
theorem closeScannerModal_idempotent_cleanup :
    ∀ m : ManagerState,
      ScannerManager.closeScannerModal (ScannerManager.closeScannerModal m) =
        ScannerManager.closeScannerModal m ∧
      (ScannerManager.closeScannerModal m).modalHidden = true ∧
      (ScannerManager.closeScannerModal m).scanner.isScanning = false ∧
      (ScannerManager.closeScannerModal m).scanner.scannerInitialized = false ∧
      (ScannerManager.closeScannerModal m).scanner.handlerAttached = false ∧
      (ScannerManager.closeScannerModal m).scanTimeout = none ∧
      (m.scanner.engineRunning = m.scanner.isScanning →
        (ScannerManager.closeScannerModal m).scanner.engineRunning = false) ∧
      (∀ barcode, (ScannerManager.handleScanResult m barcode).1 =
        ScannerManager.closeScannerModal m) ∧
      (∀ err, (ScannerManager.handleScanError m err).1 =
        ScannerManager.closeScannerModal m) := by
  intro m
  obtain ⟨mh, ⟨a, b, c, d⟩, t⟩ := m
  cases a <;> cases t <;>
    simp [ScannerManager.closeScannerModal, ScannerManager.handleScanResult,
      ScannerManager.handleScanError, BarcodeScanner.stop]

theorem closeScannerModal_idempotent_cleanup_witness :
    openManagerState.scanner.engineRunning = openManagerState.scanner.isScanning ∧
    (ScannerManager.closeScannerModal openManagerState).scanner.engineRunning = false :=
  ⟨rfl, (closeScannerModal_idempotent_cleanup _).2.2.2.2.2.2.1 rfl⟩

/-- C8: `getCurrentEnvironmentName` returns the human-readable label of
the current environment key, and the literal "Unknown" whenever the key
has no label mapping. -/
theorem getCurrentEnvironmentName_unknown_fallback :
    ∀ (envNames : String → Option String) (currentEnv : String),
      (envNames currentEnv = none →
        getCurrentEnvironmentName envNames currentEnv = "Unknown") ∧
      (∀ label, envNames currentEnv = some label → label ≠ "" →
        getCurrentEnvironmentName envNames currentEnv = label) := by
  intro envNames currentEnv
  constructor
  · intro h; simp [getCurrentEnvironmentName, jsStringOr, h]
  · intro label h hne; simp [getCurrentEnvironmentName, jsStringOr, h, hne]

theorem getCurrentEnvironmentName_unknown_fallback_witness :
    getCurrentEnvironmentName
        (fun k => if k = "dev" then some "Development" else none) "prod" = "Unknown" ∧
    getCurrentEnvironmentName
        (fun k => if k = "dev" then some "Development" else none) "dev" = "Development" :=
  ⟨(getCurrentEnvironmentName_unknown_fallback _ _).1 rfl,
   (getCurrentEnvironmentName_unknown_fallback _ _).2 "Development" rfl (by decide)⟩

end CommunityCard

namespace CommunityCard

theorem floor_natCast_add_half (m : ℕ) : ⌊(m : ℚ) + 1/2⌋ = (m : ℤ) := by
  have h12 : ⌊(1/2 : ℚ)⌋ = 0 := by
    rw [Int.floor_eq_zero_iff]
    constructor <;> norm_num
  have h : ((m : ℚ) + 1/2) = ((m : ℤ) : ℚ) + 1/2 := by push_cast; ring
  rw [h, Int.floor_int_add, h12, add_zero]

theorem toFixed2abs_natCast_div100 (m : ℕ) :
    toFixed2abs ((m : ℚ) / 100) = toString (m / 100) ++ "." ++ pad2 (m % 100) := by
  simp only [toFixed2abs]
  have h1 : ((m : ℚ) / 100) * 100 + 1/2 = (m : ℚ) + 1/2 := by
    rw [div_mul_cancel₀]
    norm_num
  rw [h1, floor_natCast_add_half]
  simp [Int.toNat_natCast]

theorem formatCurrency_eq_spec (n : ℤ) :
    formatCurrency n = specCurrencyRendering n := by
  unfold formatCurrency toFixed2 specCurrencyRendering
  by_cases hn : n < 0
  · have hq : ((n : ℚ)) < 0 := by exact_mod_cast hn
    have hx : ((n : ℚ) / 100) < 0 := div_neg_of_neg_of_pos hq (by norm_num)
    rw [if_pos hx, if_pos hn]
    have habs : -((n : ℚ) / 100) = ((n.natAbs : ℚ) / 100) := by
      rw [← neg_div]
      congr 1
      calc -(n : ℚ) = ((-n : ℤ) : ℚ) := by push_cast; ring
        _ = (((n.natAbs : ℤ)) : ℚ) := by
              rw [Int.ofNat_natAbs_of_nonpos (le_of_lt hn)]
        _ = ((n.natAbs : ℚ)) := Int.cast_natCast _
    rw [habs, toFixed2abs_natCast_div100]
    simp only [← String.append_assoc]
  · push_neg at hn
    have hq : (0 : ℚ) ≤ (n : ℚ) := by exact_mod_cast hn
    have hx : ¬ ((n : ℚ) / 100) < 0 :=
      not_lt.mpr (div_nonneg hq (by norm_num))
    rw [if_neg hx, if_neg (not_lt.mpr hn)]
    have habs : ((n : ℚ) / 100) = ((n.natAbs : ℚ) / 100) := by
      congr 1
      calc (n : ℚ) = (((n.natAbs : ℤ)) : ℚ) := by
              rw [Int.natAbs_of_nonneg hn]
        _ = ((n.natAbs : ℚ)) := Int.cast_natCast _
    rw [habs, toFixed2abs_natCast_div100]
    simp only [← String.append_assoc, String.append_empty]

/-- C2: `formatCurrency` divides the integer amount of minor units by 100,
renders it with exactly two decimal places and prefixes "€"; in
particular 1234 renders as "€12.34", 0 as "€0.00" and 100000 as
"€1000.00". -/
theorem formatCurrency_two_decimal_euro :
    (∀ n : ℤ, formatCurrency n = specCurrencyRendering n) ∧
    formatCurrency 1234 = "€12.34" ∧
    formatCurrency 0 = "€0.00" ∧
    formatCurrency 100000 = "€1000.00" :=
  ⟨formatCurrency_eq_spec,
   by rw [formatCurrency_eq_spec]; decide,
   by rw [formatCurrency_eq_spec]; decide,
   by rw [formatCurrency_eq_spec]; decide⟩

/-- C9: for negative amounts `formatCurrency` places the currency symbol
before the minus sign; in particular -1234 renders as "€-12.34". -/
theorem formatCurrency_negative_symbol_first :
    (∀ n : ℤ, n < 0 →
      formatCurrency n =
        "€-" ++ toString (n.natAbs / 100) ++ "." ++ pad2 (n.natAbs % 100)) ∧
    formatCurrency (-1234) = "€-12.34" := by
  constructor
  · intro n hn
    rw [formatCurrency_eq_spec]
    unfold specCurrencyRendering
    rw [if_pos hn]
    have h : ("€" ++ "-" : String) = "€-" := by decide
    rw [h]
  · rw [formatCurrency_eq_spec]; decide

theorem formatCurrency_negative_symbol_first_witness :
    ((-1234 : ℤ) < 0) ∧
    formatCurrency (-1234) =
      "€-" ++ toString ((-1234 : ℤ).natAbs / 100) ++ "." ++ pad2 ((-1234 : ℤ).natAbs % 100) :=
  ⟨by decide, formatCurrency_negative_symbol_first.1 (-1234) (by decide)⟩

end CommunityCard

namespace CommunityCard

theorem char_isDigit_toNat (c : Char) (h : c.isDigit = true) :
    48 ≤ c.toNat ∧ c.toNat ≤ 57 := by
  simp [Char.isDigit] at h
  obtain ⟨h1, h2⟩ := h
  exact ⟨h1, h2⟩

theorem escapeJsonChar_of_isDigit (c : Char) (h : c.isDigit = true) :
    escapeJsonChar c = String.singleton c := by
  obtain ⟨h1, h2⟩ := char_isDigit_toNat c h
  unfold escapeJsonChar
  have e34 : ¬ c.toNat = 34 := by omega
  have e92 : ¬ c.toNat = 92 := by omega
  have e10 : ¬ c.toNat = 10 := by omega
  have e13 : ¬ c.toNat = 13 := by omega
  have e9 : ¬ c.toNat = 9 := by omega
  have e8 : ¬ c.toNat = 8 := by omega
  have e12 : ¬ c.toNat = 12 := by omega
  have elo : ¬ c.toNat < 32 := by omega
  rw [if_neg e34, if_neg e92, if_neg e10, if_neg e13, if_neg e9,
    if_neg e8, if_neg e12, if_neg elo]

theorem foldr_append_map_singleton (l : List Char) :
    (l.map String.singleton).foldr (· ++ ·) "" = String.mk l := by
  induction l with
  | nil => rfl
  | cons c cs ih =>
    simp only [List.map_cons, List.foldr_cons, ih]
    rfl

theorem escapeJsonString_of_digits (s : String)
    (h : ∀ c ∈ s.data, c.isDigit = true) :
    escapeJsonString s = "\"" ++ s ++ "\"" := by
  unfold escapeJsonString
  have hmap : s.data.map escapeJsonChar = s.data.map String.singleton :=
    List.map_congr_left fun c hc => escapeJsonChar_of_isDigit c (h c hc)
  rw [hmap, foldr_append_map_singleton]

theorem cardBalanceRequest_body_eq (barcode : String)
    (h : ∀ c ∈ barcode.data, c.isDigit = true) :
    (cardBalanceRequest barcode).body =
      "\x7b\"data\":\x7b\"barcode\":\"" ++ barcode ++ "\"\x7d\x7d" := by
  have hbar : escapeJsonString barcode = "\"" ++ barcode ++ "\"" :=
    escapeJsonString_of_digits barcode h
  have hdq : escapeJsonString "data" = "\"data\"" := by decide
  have hbq : escapeJsonString "barcode" = "\"barcode\"" := by decide
  have hint : ∀ x : String, String.intercalate "," [x] = x := fun x => rfl
  simp [cardBalanceRequest, jsonStringify, jsonStringifyFields, hbar, hdq, hbq, hint]
  simp only [← String.append_assoc]
  rw [String.append_assoc, String.append_assoc]
  have hsuffix : ("\"" ++ ("\x7d" ++ "\x7d") : String) = "\"\x7d\x7d" := by decide
  rw [hsuffix]
  simp

theorem setLookupState_false_isLookingUp (st : AppState) :
    (CommunityCardApp.setLookupState st false).isLookingUp = false := by
  simp [CommunityCardApp.setLookupState]

theorem setLookupState_false_errorVisible (st : AppState) :
    (CommunityCardApp.setLookupState st false).errorVisible = st.errorVisible := by
  simp [CommunityCardApp.setLookupState]

theorem setLookupState_false_errorMessageText (st : AppState) :
    (CommunityCardApp.setLookupState st false).errorMessageText = st.errorMessageText := by
  simp [CommunityCardApp.setLookupState]

theorem showError_errorVisible (st : AppState) (m : String) :
    (CommunityCardApp.showError st m).errorVisible = true := by
  simp [CommunityCardApp.showError, CommunityCardApp.hideAllSections]

theorem showError_errorMessageText (st : AppState) (m : String) :
    (CommunityCardApp.showError st m).errorMessageText = m := by
  simp [CommunityCardApp.showError, CommunityCardApp.hideAllSections]

theorem performLookup_outcome_ok (st : AppState) (transport : Transport)
    (st₂ : AppState)
    (h1 : isValidBarcode (jsTrim st.inputValue) = true)
    (h2 : st.isLookingUp = false)
    (ho : CommunityCardApp.lookupOutcome
        { CommunityCardApp.setLookupState st true with
            currentBarcode := some (jsTrim st.inputValue) }
        transport (jsTrim st.inputValue) = .ok st₂) :
    CommunityCardApp.performLookup st transport =
      (CommunityCardApp.setLookupState st₂ false,
       [cardBalanceRequest (jsTrim st.inputValue)]) := by
  have h0 : ¬ jsTrim st.inputValue = "" := by
    intro hh
    rw [hh] at h1
    exact absurd h1 (by decide)
  simp [CommunityCardApp.performLookup, h0, h1, h2, ho]

theorem performLookup_outcome_error (st : AppState) (transport : Transport) (e : String)
    (h1 : isValidBarcode (jsTrim st.inputValue) = true)
    (h2 : st.isLookingUp = false)
    (he : CommunityCardApp.lookupOutcome
        { CommunityCardApp.setLookupState st true with
            currentBarcode := some (jsTrim st.inputValue) }
        transport (jsTrim st.inputValue) = .error e) :
    CommunityCardApp.performLookup st transport =
      (CommunityCardApp.setLookupState
        (CommunityCardApp.showError
          { CommunityCardApp.setLookupState st true with
              currentBarcode := some (jsTrim st.inputValue) }
          ("Network error: " ++ e)) false,
       [cardBalanceRequest (jsTrim st.inputValue)]) := by
  have h0 : ¬ jsTrim st.inputValue = "" := by
    intro hh
    rw [hh] at h1
    exact absurd h1 (by decide)
  simp [CommunityCardApp.performLookup, h0, h1, h2, he]

/-- C3: `getCardBalance` issues one POST to the balance-lookup endpoint
with JSON body wrapping the barcode, returns the parsed response's nested
`result` unchanged, and propagates any transport/parse failure unchanged,
which `performLookup` surfaces as "Network error: <message>". -/
theorem getCardBalance_contract :
    ∀ (transport : Transport) (barcode : String),
      (cardBalanceRequest barcode).method = "POST" ∧
      (cardBalanceRequest barcode).url =
        "https://europe-west1-community-card-dev.cloudfunctions.net/getCardBalance" ∧
      (cardBalanceRequest barcode).contentType = "application/json" ∧
      ((∀ c ∈ barcode.data, c.isDigit = true) →
        (cardBalanceRequest barcode).body =
          "\x7b\"data\":\x7b\"barcode\":\"" ++ barcode ++ "\"\x7d\x7d") ∧
      (∀ e, transport (cardBalanceRequest barcode) = .error e →
        getCardBalance transport barcode = .error e) ∧
      (∀ fields r, transport (cardBalanceRequest barcode) = .ok (.object fields) →
        lookupField fields "result" = some r →
        getCardBalance transport barcode = .ok r) ∧
      (∀ (st : AppState) (e : String), st.isLookingUp = false →
        jsTrim st.inputValue = barcode →
        isValidBarcode barcode = true →
        transport (cardBalanceRequest barcode) = .error e →
        (CommunityCardApp.performLookup st transport).2 = [cardBalanceRequest barcode] ∧
        (CommunityCardApp.performLookup st transport).1.errorVisible = true ∧
        (CommunityCardApp.performLookup st transport).1.errorMessageText =
          "Network error: " ++ e) := by
  intro transport barcode
  refine ⟨rfl, rfl, rfl, cardBalanceRequest_body_eq barcode,
    fun e he => ?_, fun fields r ht hf => ?_, fun st e hst htrim hv htr => ?_⟩
  · unfold getCardBalance
    rw [he]
  · unfold getCardBalance
    rw [ht]
    simp [jsGet, hf]
  · subst htrim
    have hgb : getCardBalance transport (jsTrim st.inputValue) = .error e := by
      unfold getCardBalance
      rw [htr]
    have he : CommunityCardApp.lookupOutcome
        { CommunityCardApp.setLookupState st true with
            currentBarcode := some (jsTrim st.inputValue) }
        transport (jsTrim st.inputValue) = .error e := by
      unfold CommunityCardApp.lookupOutcome
      rw [hgb]
    rw [performLookup_outcome_error st transport e hv hst he]
    refine ⟨rfl, ?_, ?_⟩
    · rw [setLookupState_false_errorVisible, showError_errorVisible]
    · rw [setLookupState_false_errorMessageText, showError_errorMessageText]

theorem getCardBalance_contract_witness :
    (∀ c ∈ ("1234567890123456" : String).data, c.isDigit = true) ∧
    (cardBalanceRequest "1234567890123456").body =
      "\x7b\"data\":\x7b\"barcode\":\"1234567890123456\"\x7d\x7d" ∧
    getCardBalance (fun _ => Except.error "offline") "1234567890123456" =
      Except.error "offline" ∧
    (CommunityCardApp.performLookup (idleState "1234567890123456")
        (fun _ => Except.error "offline")).1.errorMessageText =
      "Network error: offline" := by
  have h := getCardBalance_contract (fun _ => Except.error "offline") "1234567890123456"
  refine ⟨by decide, ?_, ?_, ?_⟩
  · exact (h.2.2.2.1 (by decide)).trans (by decide)
  · exact h.2.2.2.2.1 "offline" rfl
  · exact (h.2.2.2.2.2.2 (idleState "1234567890123456") "offline" rfl (by decide)
      (by decide) rfl).2.2

/-- C6 counterexample: with the in-flight flag set and an empty barcode
field, a further `performLookup` call issues no request but does change
the state (the validation error banner appears before the in-flight guard
runs), refuting the claim that such a call changes nothing. -/
theorem performLookup_inflight_counterexample :
    (inFlightState "").isLookingUp = true ∧
    (CommunityCardApp.performLookup (inFlightState "")
        (fun _ => Except.error "offline")).2 = [] ∧
    (CommunityCardApp.performLookup (inFlightState "")
        (fun _ => Except.error "offline")).1 ≠ inFlightState "" :=
  ⟨rfl, by decide, by decide⟩

/-- C6 (amended): while the in-flight flag is set, a further call issues
no network request, and when its input passes validation it changes
nothing at all (an empty or invalid input shows a validation error
instead, still with no request); when no lookup is in flight, the flag is
cleared on every completion path of the call. -/
theorem performLookup_single_flight :
    ∀ (st : AppState) (transport : Transport),
      (st.isLookingUp = true →
        (CommunityCardApp.performLookup st transport).2 = [] ∧
        (isValidBarcode (jsTrim st.inputValue) = true →
          CommunityCardApp.performLookup st transport = (st, []))) ∧
      (st.isLookingUp = false →
        (CommunityCardApp.performLookup st transport).1.isLookingUp = false) := by
  intro st transport
  constructor
  · intro h
    by_cases h0 : jsTrim st.inputValue = ""
    · refine ⟨by simp [CommunityCardApp.performLookup, h0], fun hv => ?_⟩
      rw [h0] at hv
      exact absurd hv (by decide)
    · by_cases h1 : isValidBarcode (jsTrim st.inputValue) = true
      · have hrun : CommunityCardApp.performLookup st transport = (st, []) := by
          simp [CommunityCardApp.performLookup, h0, h1, h]
        exact ⟨by rw [hrun], fun _ => hrun⟩
      · have h1f : isValidBarcode (jsTrim st.inputValue) = false := by
          cases hb : isValidBarcode (jsTrim st.inputValue)
          · rfl
          · exact absurd hb h1
        exact ⟨by simp [CommunityCardApp.performLookup, h0, h1f],
          fun hv => absurd hv h1⟩
  · intro h
    by_cases h0 : jsTrim st.inputValue = ""
    · simp [CommunityCardApp.performLookup, h0, CommunityCardApp.showError,
        CommunityCardApp.hideAllSections, h]
    · by_cases h1 : isValidBarcode (jsTrim st.inputValue) = true
      · rcases ho : CommunityCardApp.lookupOutcome
            { CommunityCardApp.setLookupState st true with
                currentBarcode := some (jsTrim st.inputValue) }
            transport (jsTrim st.inputValue) with e | st₂
        · rw [performLookup_outcome_error st transport e h1 h ho]
          exact setLookupState_false_isLookingUp _
        · rw [performLookup_outcome_ok st transport st₂ h1 h ho]
          exact setLookupState_false_isLookingUp _
      · have h1f : isValidBarcode (jsTrim st.inputValue) = false := by
          cases hb : isValidBarcode (jsTrim st.inputValue)
          · rfl
          · exact absurd hb h1
        simp [CommunityCardApp.performLookup, h0, h1f, CommunityCardApp.showError,
          CommunityCardApp.hideAllSections, h]

theorem performLookup_single_flight_witness :
    (inFlightState "1234567890123456").isLookingUp = true ∧
    isValidBarcode (jsTrim (inFlightState "1234567890123456").inputValue) = true ∧
    CommunityCardApp.performLookup (inFlightState "1234567890123456")
        (fun _ => Except.error "offline") = (inFlightState "1234567890123456", []) :=
  ⟨rfl, by decide, ((performLookup_single_flight _ _).1 rfl).2 (by decide)⟩

/-- C10: when the response parses as JSON but has no top-level `result`,
`getCardBalance` returns `undefined`, the status dispatch throws on the
property access, and the failure is surfaced through the
"Network error: <message>" path, not as "Unexpected response from
server". -/
theorem performLookup_missing_result_network_error :
    ∀ (st : AppState) (transport : Transport) (fields : List (String × JsVal)),
      st.isLookingUp = false →
      isValidBarcode (jsTrim st.inputValue) = true →
      transport (cardBalanceRequest (jsTrim st.inputValue)) = .ok (.object fields) →
      lookupField fields "result" = none →
      getCardBalance transport (jsTrim st.inputValue) = .ok .undefined ∧
      (CommunityCardApp.performLookup st transport).1.errorVisible = true ∧
      (CommunityCardApp.performLookup st transport).1.errorMessageText =
        "Network error: Cannot read properties of undefined (reading status)" ∧
      (CommunityCardApp.performLookup st transport).1.errorMessageText ≠
        "Unexpected response from server" := by
  intro st transport fields hst hv htr hf
  have hgb : getCardBalance transport (jsTrim st.inputValue) = .ok .undefined := by
    unfold getCardBalance
    rw [htr]
    simp [jsGet, hf]
  have he : CommunityCardApp.lookupOutcome
      { CommunityCardApp.setLookupState st true with
          currentBarcode := some (jsTrim st.inputValue) }
      transport (jsTrim st.inputValue) =
        .error "Cannot read properties of undefined (reading status)" := by
    unfold CommunityCardApp.lookupOutcome
    rw [hgb]
    rfl
  have hmsg : (CommunityCardApp.performLookup st transport).1.errorMessageText =
      "Network error: Cannot read properties of undefined (reading status)" := by
    rw [performLookup_outcome_error st transport _ hv hst he,
      setLookupState_false_errorMessageText, showError_errorMessageText]
    rfl
  refine ⟨hgb, ?_, hmsg, ?_⟩
  · rw [performLookup_outcome_error st transport _ hv hst he,
      setLookupState_false_errorVisible, showError_errorVisible]
  · rw [hmsg]
    decide

theorem performLookup_missing_result_network_error_witness :
    (idleState "1234567890123456").isLookingUp = false ∧
    isValidBarcode (jsTrim (idleState "1234567890123456").inputValue) = true ∧
    getCardBalance (fun _ => Except.ok (JsVal.object []))
      (jsTrim (idleState "1234567890123456").inputValue) = Except.ok JsVal.undefined ∧
    (CommunityCardApp.performLookup (idleState "1234567890123456")
        (fun _ => Except.ok (JsVal.object []))).1.errorMessageText =
      "Network error: Cannot read properties of undefined (reading status)" := by
  have h := performLookup_missing_result_network_error (idleState "1234567890123456")
    (fun _ => Except.ok (JsVal.object [])) [] rfl (by decide) rfl rfl
  exact ⟨rfl, by decide, h.1, h.2.2.1⟩

end CommunityCard
